import Mathlib

/-!
Verification development for the FastAPI users CRUD service
(`server-app-python-fastapi-postgresdb-docker`).

The Python sources are shallowly embedded:
* strings are `List Char`;
* Python ints are `Int` (arbitrary precision, as in CPython);
* fallible code returns `Except`;
* the regular-expression substitution
  `re.sub(r"(page=)[^&]", rf"\g<1>{n}", base_url)` used by
  `APIPaginationService` is modelled by `reSubPage`, which scans left to
  right and, at each position where the literal `page=` is followed by one
  character other than `&`, replaces those six characters by `page=` ++ the
  replacement text, continuing after the match (the semantics of
  `re.sub` for this pattern).
-/

set_option maxHeartbeats 1000000

set_option maxRecDepth 100000

/-- `startsWithL pat l` : `l` starts with the pattern `pat`. -/
def startsWithL : List Char → List Char → Bool
  | [], _ => true
  | _ :: _, [] => false
  | p :: ps, c :: cs => if p = c then startsWithL ps cs else false

/-- `containsL pat l` : `pat` occurs as a contiguous substring of `l`
(the embedding of Python `pat in l` on strings). -/
def containsL (pat : List Char) : List Char → Bool
  | [] => pat.isEmpty
  | c :: rest => startsWithL pat (c :: rest) || containsL pat rest

/-- The four characters of the literal `page`. -/
def page4 : List Char := ['p', 'a', 'g', 'e']

/-- The five characters of the literal `page=` (group 1 of the pattern). -/
def pageEq : List Char := ['p', 'a', 'g', 'e', '=']

/-- Does the regex `(page=)[^&]` match at the head of `l`?
It does exactly when `l` starts with `page=` followed by at least one
character that is not `&`. -/
def matchesAt (l : List Char) : Bool :=
  startsWithL pageEq l && ((l.drop 5).headD '&' != '&')

/-- Worker for `reSubPage` with a structural fuel (one unit per scanned
position) so that the kernel can evaluate it.  A match consumes the six
matched characters; a non-match emits one character and rescans from the
next position, exactly as `re.sub` does. -/
def reSubPageAux (repl : List Char) : Nat → List Char → List Char
  | 0, _ => []
  | _ + 1, [] => []
  | fuel + 1, c :: rest =>
    if matchesAt (c :: rest) then
      pageEq ++ repl ++ reSubPageAux repl fuel (rest.drop 5)
    else
      c :: reSubPageAux repl fuel rest

/-- The embedding of `re.sub(r"(page=)[^&]", "page=" ++ repl, l)`:
replace every (left-to-right, non-overlapping) match of the pattern by
`page=` followed by `repl`. -/
def reSubPage (repl : List Char) (l : List Char) : List Char :=
  reSubPageAux repl l.length l

/-- Decimal digits of a natural number, most significant first, with an
explicit structural fuel so that the kernel can evaluate it. -/
def natCharsAux : Nat → Nat → List Char
  | 0, _ => []
  | fuel + 1, n =>
    if n < 10 then [Nat.digitChar n]
    else natCharsAux fuel (n / 10) ++ [Nat.digitChar (n % 10)]

/-- The embedding of Python `str(n)` for a natural number `n`. -/
def natChars (n : Nat) : List Char := natCharsAux (n + 1) n

/-- The embedding of Python `str(i)` / f-string interpolation for an
arbitrary integer `i`. -/
def intToChars (i : Int) : List Char :=
  if i < 0 then '-' :: natChars i.natAbs else natChars i.toNat

/-- `APIPaginationService.__get_total_pages`:
`math.ceil(total_records / limit)`, with Python's true division embedded
as exact division in `ℚ`. -/
def get_total_pages (limit total_records : Int) : Int :=
  ⌈(total_records : ℚ) / (limit : ℚ)⌉

/-- `APIPaginationService.__get_previous_page`. -/
def get_previous_page (base_url : List Char) (page limit total_records : Int) :
    Option (List Char) :=
  if page = 1 then none
  else if total_records - (page - 1) * limit ≤ 0 then none
  else some (reSubPage (intToChars (page - 1)) base_url)

/-- `APIPaginationService.__get_next_page`. -/
def get_next_page (base_url : List Char) (page limit total_records : Int) :
    Option (List Char) :=
  if total_records - page * limit ≤ 0 then none
  else if containsL page4 base_url then
    some (reSubPage (intToChars (page + 1)) base_url)
  else if containsL ['l', 'i', 'm', 'i', 't'] base_url then
    some (base_url ++ ('&' :: pageEq) ++ intToChars (page + 1))
  else
    some (base_url ++ ('?' :: pageEq) ++ intToChars (page + 1) ++
      "&limit=1".data)

/-- `APIPaginationData` (pydantic model), records abstracted over `α`. -/
structure APIPaginationData (α : Type) where
  page : Int
  limit : Int
  total_records : Int
  records : List α

/-- `APIPaginationResponse` (pydantic model), records abstracted over `α`. -/
structure APIPaginationResponse (α : Type) where
  page : Int
  limit : Int
  total_pages : Int
  total_records : Int
  records : List α
  previous : Option (List Char)
  next : Option (List Char)

/-- `APIPaginationService.create_response`. -/
def create_response {α : Type} (base_url : List Char)
    (d : APIPaginationData α) : APIPaginationResponse α :=
  { page := d.page
    limit := d.limit
    total_pages := get_total_pages d.limit d.total_records
    total_records := d.total_records
    records := d.records
    previous := get_previous_page base_url d.page d.limit d.total_records
    next := get_next_page base_url d.page d.limit d.total_records }

/-- The value of the first `page` query parameter of a URL: the characters
after the first occurrence of `page=`, up to the next `&` or the end. -/
def pageParamOf : List Char → Option (List Char)
  | [] => none
  | c :: rest =>
    if startsWithL pageEq (c :: rest) then
      some (List.takeWhile (fun x => x != '&') ((c :: rest).drop 5))
    else pageParamOf rest

/-- A parsed `uuid.UUID` value (opaque; only its success or failure
matters to the control flow). -/
structure UUIDVal where
  hex : String

/-- A `datetime.datetime`: an instant plus an optional timezone; `tz = none`
is a naive datetime, `tz = some _` a timezone-aware one. -/
structure PyDateTime where
  stamp : Int
  tz : Option Int

/-- `datetime.astimezone()` with the process-local offset `localtz`:
the result is always timezone-aware. -/
def astimezone (localtz : Int) (d : PyDateTime) : PyDateTime :=
  { stamp := d.stamp, tz := some localtz }

/-- The domain `User` pydantic model (`user_models.User`): every field but
`name` and `email` is optional. -/
structure User where
  id : Option String
  name : String
  email : String
  created_at : Option PyDateTime
  updated_at : Option PyDateTime

/-- The wire-request `UserRequest` pydantic model (after validation). -/
structure UserRequest where
  name : String
  email : String

/-- An attribute bag: what `UserMapper.to_domain` sees through
`hasattr`/attribute access.  A `none` field is an absent attribute (or an
attribute holding `None`, which `to_domain` treats identically for the
optional fields).  A database row read back through `DictToObj` is such a
bag; a plain dict is not — it exposes no attributes at all (its entries
are only reachable by subscript), so its attribute view is the empty
bag `dictAsBag`. -/
structure RawBag where
  id : Option String
  name : Option String
  email : Option String
  created_at : Option PyDateTime
  updated_at : Option PyDateTime

/-- A full storage row of the `users` table: `name`, `email`, `id`,
`created_at` are NOT NULL columns; `updated_at` is nullable. -/
structure StorageRow where
  id : String
  name : String
  email : String
  created_at : PyDateTime
  updated_at : Option PyDateTime

/-- The wire-response `UserResponse` pydantic model: `id` and `created_at`
are required (non-`None`) fields, enforced by pydantic validation. -/
structure UserResponse where
  id : String
  name : String
  email : String
  created_at : PyDateTime
  updated_at : Option PyDateTime

/-- A plain Python dict with string values, as returned by
`UserMapper.to_persistence`.  Its entries are reachable only by
subscript, never by attribute access. -/
structure PyDict where
  entries : List (String × String)

/-- Dictionary lookup by key. -/
def lookupD (d : PyDict) (k : String) : Option String :=
  (d.entries.find? (fun p => p.1 == k)).map (fun p => p.2)

/-- The attribute view of a plain dict: a dict object has no `id`, `name`,
`email`, `created_at` or `updated_at` attributes (`hasattr` is false and
attribute access raises `AttributeError`), whatever its entries are. -/
def dictAsBag (_ : PyDict) : RawBag :=
  { id := none, name := none, email := none,
    created_at := none, updated_at := none }

/-- `DictToObj.__init__`: `setattr` one attribute per dict entry (the
`UUID`-to-hex conversion is the identity on these string values); the
timestamp attributes stay absent for a string-valued dict. -/
def dict_to_obj (d : PyDict) : RawBag :=
  { id := lookupD d "id", name := lookupD d "name",
    email := lookupD d "email", created_at := none, updated_at := none }

/-- `UserMapper.to_persistence`: the plain dict with exactly the keys
`name` and `email`. -/
def to_persistence (u : User) : PyDict :=
  { entries := [("name", u.name), ("email", u.email)] }

/-- `UserMapper.to_domain`: reads `name`/`email` unconditionally (an absent
attribute raises, and a `None` value fails `User` validation — both are the
error case) and the other fields through `hasattr` guards. -/
def to_domain (raw : RawBag) : Except String User :=
  match raw.name, raw.email with
  | some n, some e =>
    .ok { id := raw.id, name := n, email := e,
          created_at := raw.created_at, updated_at := raw.updated_at }
  | _, _ => .error "AttributeError"

/-- `UserMapper.to_response`: pydantic validation of `UserResponse` rejects
`id = None` and `created_at = None`; present timestamps are passed through
`astimezone()`. -/
def to_response (localtz : Int) (u : User) : Except String UserResponse :=
  match u.id, u.created_at with
  | some i, some c =>
    .ok { id := i, name := u.name, email := u.email,
          created_at := astimezone localtz c,
          updated_at := u.updated_at.map (astimezone localtz) }
  | _, _ => .error "ValidationError"

/-- A validated wire request seen as an attribute bag (what the controller
passes to `to_domain`). -/
def reqToBag (r : UserRequest) : RawBag :=
  { id := none, name := some r.name, email := some r.email,
    created_at := none, updated_at := none }

/-- A storage row seen as an attribute bag (what `DictToObj` produces from
`result.first()._asdict()`). -/
def rowToBag (r : StorageRow) : RawBag :=
  { id := some r.id, name := some r.name, email := some r.email,
    created_at := some r.created_at, updated_at := r.updated_at }

/-- The `context` payloads attached to `Detail` by this codebase. -/
inductive CtxVal where
  | user : User → CtxVal
  | userId : String → CtxVal
  | idAndUser : String → User → CtxVal
  | pageLimit : Int → Int → CtxVal

/-- `server_error.Detail`. -/
structure Detail where
  context : Option CtxVal
  cause : Option String

/-- A constructed `server_error.ServerError`. -/
structure ServerErrorE where
  message : String
  status_code : Int
  detail : Option Detail
  is_operational : Bool

/-- Python `str(x)` for an `Optional[int]`: `None` prints as `None`. -/
def pyStrOptInt : Option Int → List Char
  | none => "None".data
  | some c => intToChars c

/-- `str.startswith("4")`: the first character is `4`. -/
def startsWith4 (l : List Char) : Bool := l.headD ' ' == '4'

/-- `ServerError.__init__`: the stored status code falls back to 500 when
the argument is `None` or falsy (`0`), and `is_operational` is
`f"{status_code}".startswith("4")` computed on the ARGUMENT. -/
def mkServerError (message : String) (status_code : Option Int)
    (detail : Option Detail) : ServerErrorE :=
  { message := message
    status_code :=
      match status_code with
      | some c => if c = 0 then 500 else c
      | none => 500
    detail := detail
    is_operational := startsWith4 (pyStrOptInt status_code) }

/-- `api_error_response.APIErrorResponse`. -/
structure APIErrorResponse where
  message : String
  detail : Option Detail
  is_operational : Bool

/-- A `JSONResponse` carrying an error envelope. -/
structure JSONErrorResponse where
  content : APIErrorResponse
  status_code : Int

/-- `APIErrorHandler.handle_request_validation_error`: always 422 and
operational. -/
def handle_request_validation_error (body : Option CtxVal)
    (errors : String) : JSONErrorResponse :=
  { content :=
      { message := "Validation failed"
        detail := some { context := body, cause := some errors }
        is_operational := true }
    status_code := 422 }

/-- `APIErrorHandler.handle_server_error`: passes the error through. -/
def handle_server_error (e : ServerErrorE) : JSONErrorResponse :=
  { content :=
      { message := e.message
        detail := e.detail
        is_operational := e.is_operational }
    status_code := e.status_code }

/-- A Python exception as the service layer distinguishes them:
a `ServerError`, or any other exception rendered by `str`. -/
inductive PyErr where
  | server : ServerErrorE → PyErr
  | other : String → PyErr

/-- Python `str(x)` for the `Optional` cause of a `Detail`. -/
def strOfCause : Option String → String
  | none => "None"
  | some s => s

/-- The result of `conn.execute`: SQLAlchemy rowcount plus the returned
rows (as attribute bags). -/
structure ExecResult where
  rowcount : Int
  rows : List RawBag

/-- `UserRepository.read_user`: the try-block body runs the UUID parse,
the query, the zero-rowcount check and the row conversion; any failure is
re-raised as a 500 `ServerError` whose cause is `str(err.__cause__)`. -/
def read_user (user_id : String) (parsed : Option UUIDVal)
    (db : UUIDVal → Except String ExecResult) : Except PyErr (Option User) :=
  let body : Except String (Option User) :=
    match parsed with
    | none => .error "None"
    | some uid =>
      match db uid with
      | .error cause => .error cause
      | .ok res =>
        if res.rowcount = 0 then .ok none
        else
          match res.rows.head? with
          | none => .error "None"
          | some raw =>
            match to_domain raw with
            | .ok u => .ok (some u)
            | .error _ => .error "None"
  match body with
  | .ok v => .ok v
  | .error cause =>
    .error (.server (mkServerError
      "An error occurred when reading a user from database" (some 500)
      (some { context := some (.userId user_id), cause := some cause })))

/-- `UserRepository.update_user`: same shape as `read_user` with the UPDATE
... RETURNING statement. -/
def update_user (user_id : String) (user : User) (parsed : Option UUIDVal)
    (db : UUIDVal → Except String ExecResult) : Except PyErr (Option User) :=
  let body : Except String (Option User) :=
    match parsed with
    | none => .error "None"
    | some uid =>
      match db uid with
      | .error cause => .error cause
      | .ok res =>
        if res.rowcount = 0 then .ok none
        else
          match res.rows.head? with
          | none => .error "None"
          | some raw =>
            match to_domain raw with
            | .ok u => .ok (some u)
            | .error _ => .error "None"
  match body with
  | .ok v => .ok v
  | .error cause =>
    .error (.server (mkServerError
      "An error occurred when updating a user from database" (some 500)
      (some { context := some (.idAndUser user_id user), cause := some cause })))

/-- `UserRepository.delete_user`: same shape as `read_user` with the DELETE
... RETURNING statement. -/
def delete_user (user_id : String) (parsed : Option UUIDVal)
    (db : UUIDVal → Except String ExecResult) : Except PyErr (Option User) :=
  let body : Except String (Option User) :=
    match parsed with
    | none => .error "None"
    | some uid =>
      match db uid with
      | .error cause => .error cause
      | .ok res =>
        if res.rowcount = 0 then .ok none
        else
          match res.rows.head? with
          | none => .error "None"
          | some raw =>
            match to_domain raw with
            | .ok u => .ok (some u)
            | .error _ => .error "None"
  match body with
  | .ok v => .ok v
  | .error cause =>
    .error (.server (mkServerError
      "An error occurred when deleting a user from database" (some 500)
      (some { context := some (.userId user_id), cause := some cause })))

/-- The service-layer except-branch:
`cause = str(err.detail.cause) if isinstance(err, ServerError) else str(err)`;
a `ServerError` whose `detail` is `None` makes that expression itself raise
an `AttributeError` instead. -/
def service_wrap (msg : String) (ctx : CtxVal) (e : PyErr) : PyErr :=
  match e with
  | .server se =>
    match se.detail with
    | some d =>
      .server (mkServerError msg (some 500)
        (some { context := some ctx, cause := some (strOfCause d.cause) }))
    | none => .other "AttributeError"
  | .other s =>
    .server (mkServerError msg (some 500)
      (some { context := some ctx, cause := some s }))

/-- `UserService.register_user` applied to the repository outcome. -/
def register_user (user : User)
    (repo : Except PyErr (Option User)) : Except PyErr User :=
  match repo with
  | .error e =>
    .error (service_wrap "An error occurred when creating a user"
      (.user user) e)
  | .ok none =>
    .error (.server (mkServerError "User could not be created" (some 500)
      (some { context := some (.user user), cause := none })))
  | .ok (some u) => .ok u

/-- `UserService.retrieve_user` applied to the repository outcome. -/
def retrieve_user (user_id : String)
    (repo : Except PyErr (Option User)) : Except PyErr User :=
  match repo with
  | .error e =>
    .error (service_wrap "An error occurred when reading a user"
      (.userId user_id) e)
  | .ok none =>
    .error (.server (mkServerError "User could not be read" (some 404)
      (some { context := some (.userId user_id), cause := none })))
  | .ok (some u) => .ok u

/-- `UserService.replace_user` applied to the repository outcome. -/
def replace_user (user_id : String) (user : User)
    (repo : Except PyErr (Option User)) : Except PyErr User :=
  match repo with
  | .error e =>
    .error (service_wrap "An error occurred when updating a user"
      (.idAndUser user_id user) e)
  | .ok none =>
    .error (.server (mkServerError "User could not be updated" (some 404)
      (some { context := some (.idAndUser user_id user), cause := none })))
  | .ok (some u) => .ok u

/-- `UserService.remove_user` applied to the repository outcome. -/
def remove_user (user_id : String)
    (repo : Except PyErr (Option User)) : Except PyErr User :=
  match repo with
  | .error e =>
    .error (service_wrap "An error occurred when deleting a user"
      (.userId user_id) e)
  | .ok none =>
    .error (.server (mkServerError "User could not be removed" (some 404)
      (some { context := some (.userId user_id), cause := none })))
  | .ok (some u) => .ok u

/-- The HTTP status a service outcome raises with, if any. -/
def raisedStatus : Except PyErr User → Option Int
  | .error (.server se) => some se.status_code
  | _ => none

/-- The cause attached to a raised service error, if any. -/
def raisedCause : Except PyErr User → Option String
  | .error (.server se) =>
    match se.detail with
    | some d => d.cause
    | none => none
  | _ => none

/-- The cause string the service computes from a repository exception. -/
def origCause : PyErr → String
  | .server se =>
    match se.detail with
    | some d => strOfCause d.cause
    | none => "None"
  | .other s => s

/-- Every `ServerError` raised by the repository carries a `Detail`. -/
def errWellFormed : PyErr → Bool
  | .server se => se.detail.isSome
  | .other _ => true

/-- Materializing the first returned row fails: either no row is available
or the bag does not convert to a domain `User`. -/
def dbFetchFails (r : ExecResult) : Prop :=
  r.rows.head? = none ∨
    ∃ raw msg, r.rows.head? = some raw ∧ to_domain raw = Except.error msg

/-- The underlying repository operation itself failed: the id did not parse,
the statement errored, or the returned row could not be materialized. -/
def repoFaulted (parsed : Option UUIDVal)
    (db : UUIDVal → Except String ExecResult) : Prop :=
  parsed = none ∨
    (∃ uid c, parsed = some uid ∧ db uid = Except.error c) ∨
    (∃ uid r, parsed = some uid ∧ db uid = Except.ok r ∧
      r.rowcount ≠ 0 ∧ dbFetchFails r)

/-- A domain user with absent server-assigned fields, as produced by the
wire-request conversion. -/
def bareUser : User :=
  { id := none, name := "alice", email := "a@x.com",
    created_at := none, updated_at := none }

/-- A concrete timestamp. -/
def dt0 : PyDateTime := { stamp := 0, tz := none }

/-- A complete domain user, as read back from storage. -/
def fullUser : User :=
  { id := some "u1", name := "alice", email := "a@x.com",
    created_at := some dt0, updated_at := none }

/-- A concrete domain user used by witnesses. -/
def testUser : User :=
  { id := some "u1", name := "alice", email := "a@x.com",
    created_at := none, updated_at := none }

/-- A database stub whose execution reports zero rows affected. -/
def dbZero : UUIDVal → Except String ExecResult :=
  fun _ => Except.ok { rowcount := 0, rows := [] }

theorem reSubPageAux_nil (repl : List Char) (f : Nat) :
    reSubPageAux repl f [] = [] := by
  cases f <;> rfl

theorem reSubPageAux_congr (repl : List Char) :
    ∀ (f g : Nat) (l : List Char), l.length ≤ f → l.length ≤ g →
      reSubPageAux repl f l = reSubPageAux repl g l := by
  intro f
  induction f with
  | zero =>
    intro g l hf _
    have : l = [] := List.eq_nil_of_length_eq_zero (Nat.le_zero.mp hf)
    subst this
    rw [reSubPageAux_nil, reSubPageAux_nil]
  | succ f ih =>
    intro g l hf hg
    cases l with
    | nil => rw [reSubPageAux_nil, reSubPageAux_nil]
    | cons c rest =>
      cases g with
      | zero => simp at hg
      | succ g =>
        simp only [List.length_cons, Nat.succ_le_succ_iff] at hf hg
        simp only [reSubPageAux]
        by_cases h : matchesAt (c :: rest)
        · have hd : (rest.drop 5).length ≤ rest.length := by
            simp only [List.length_drop]; omega
          rw [if_pos h, if_pos h,
            ih g (rest.drop 5) (le_trans hd hf) (le_trans hd hg)]
        · rw [if_neg h, if_neg h, ih g rest hf hg]

theorem reSubPage_nil (repl : List Char) : reSubPage repl [] = [] := rfl

/-- One-step unfolding of the substitution scanner. -/

theorem reSubPage_cons (repl : List Char) (c : Char) (rest : List Char) :
    reSubPage repl (c :: rest) =
      if matchesAt (c :: rest) then
        pageEq ++ repl ++ reSubPage repl (rest.drop 5)
      else
        c :: reSubPage repl rest := by
  show reSubPageAux repl (rest.length + 1) (c :: rest) = _
  simp only [reSubPageAux]
  by_cases h : matchesAt (c :: rest)
  · rw [if_pos h, if_pos h,
      reSubPageAux_congr repl rest.length (rest.drop 5).length (rest.drop 5)
        (by simp only [List.length_drop]; omega) le_rfl]
    rfl
  · rw [if_neg h, if_neg h]
    rfl

/-- Exact ceiling of an integer quotient as integer division. -/

theorem ceil_div_eq (l t : Int) (hl : 0 < l) :
    ⌈(t : ℚ) / (l : ℚ)⌉ = (t + l - 1) / l := by
  set q : Int := (t + l - 1) / l with hq
  have h1 : q * l ≤ t + l - 1 := Int.ediv_mul_le (t + l - 1) (ne_of_gt hl)
  have h2 : t + l - 1 < (q + 1) * l :=
    Int.lt_ediv_add_one_mul_self (t + l - 1) hl
  rw [add_mul, one_mul] at h2
  have ht1 : t ≤ q * l := by linarith
  have ht2 : (q - 1) * l < t := by
    rw [sub_mul, one_mul]
    linarith
  have hlq : (0 : ℚ) < (l : ℚ) := by exact_mod_cast hl
  refine Int.ceil_eq_iff.mpr ⟨?_, ?_⟩
  · rw [lt_div_iff₀ hlq]
    exact_mod_cast ht2
  · rw [div_le_iff₀ hlq]
    exact_mod_cast ht1

/-- C1: for every `limit > 0` and `total_records ≥ 0`, the pagination
calculator's `total_pages` field equals `ceil(total_records / limit)`
(equivalently `(total_records + limit - 1) / limit`), and in particular
5 records with limit 2 give 3 pages, 1 record with limit 2 gives 1 page,
4 records with limit 2 give 2 pages. -/

theorem total_pages_is_ceil :
    (∀ (α : Type) (base_url : List Char) (page limit total_records : Int)
        (recs : List α), 0 < limit → 0 ≤ total_records →
        (create_response base_url
            ⟨page, limit, total_records, recs⟩).total_pages =
          ⌈(total_records : ℚ) / (limit : ℚ)⌉ ∧
        (create_response base_url
            ⟨page, limit, total_records, recs⟩).total_pages =
          (total_records + limit - 1) / limit) ∧
    get_total_pages 2 5 = 3 ∧ get_total_pages 2 1 = 1 ∧
      get_total_pages 2 4 = 2 := by
  refine ⟨?_, ?_, ?_, ?_⟩
  · intro α base_url page limit total_records recs hl _
    exact ⟨rfl, ceil_div_eq limit total_records hl⟩
  · exact (ceil_div_eq 2 5 (by decide)).trans (by decide)
  · exact (ceil_div_eq 2 1 (by decide)).trans (by decide)
  · exact (ceil_div_eq 2 4 (by decide)).trans (by decide)

/-- Witness for `total_pages_is_ceil` at `limit = 2`, `total_records = 5`. -/

theorem total_pages_is_ceil_witness :
    (create_response "http://h/users".data
        ⟨1, 2, 5, ([] : List Unit)⟩).total_pages =
      ⌈((5 : Int) : ℚ) / ((2 : Int) : ℚ)⌉ ∧
    (create_response "http://h/users".data
        ⟨1, 2, 5, ([] : List Unit)⟩).total_pages = (5 + 2 - 1) / 2 :=
  total_pages_is_ceil.1 Unit "http://h/users".data 1 2 5 []
    (by decide) (by decide)

/-- C2: the `previous` link is `none` exactly when `page = 1` or
`total_records - (page - 1) * limit ≤ 0`, and the `next` link is `none`
exactly when `total_records - page * limit ≤ 0`. -/

theorem link_nullity (base_url : List Char) (page limit total_records : Int)
    (hl : 0 < limit) :
    (get_previous_page base_url page limit total_records = none ↔
      page = 1 ∨ total_records - (page - 1) * limit ≤ 0) ∧
    (get_next_page base_url page limit total_records = none ↔
      total_records - page * limit ≤ 0) := by
  have := hl
  constructor
  · unfold get_previous_page
    split_ifs <;> simp_all
  · unfold get_next_page
    split_ifs <;> simp_all

/-- Witness for `link_nullity` at a concrete input. -/

theorem link_nullity_witness :
    (get_previous_page "http://h/users?page=2&limit=1".data 2 1 5 = none ↔
      (2 : Int) = 1 ∨ (5 : Int) - (2 - 1) * 1 ≤ 0) ∧
    (get_next_page "http://h/users?page=2&limit=1".data 2 1 5 = none ↔
      (5 : Int) - 2 * 1 ≤ 0) :=
  link_nullity "http://h/users?page=2&limit=1".data 2 1 5 (by decide)

theorem startsWithL_append_left (p q : List Char) :
    ∀ l : List Char, startsWithL (p ++ q) l = true → startsWithL p l = true := by
  induction p with
  | nil => intro l _; rfl
  | cons a p ih =>
    intro l h
    cases l with
    | nil => simp [startsWithL] at h
    | cons c cs =>
      simp only [List.cons_append, startsWithL] at h ⊢
      by_cases hac : a = c
      · rw [if_pos hac] at h ⊢
        exact ih cs h
      · rw [if_neg hac] at h
        exact absurd h (by simp)

theorem startsWithL_append_right (p : List Char) :
    ∀ (l z : List Char), p.length ≤ l.length →
      startsWithL p (l ++ z) = startsWithL p l := by
  induction p with
  | nil => intro l z _; rfl
  | cons a p ih =>
    intro l z h
    cases l with
    | nil => simp at h
    | cons c cs =>
      simp only [List.length_cons, Nat.succ_le_succ_iff] at h
      simp only [List.cons_append, startsWithL]
      by_cases hac : a = c
      · rw [if_pos hac, if_pos hac]
        exact ih cs z h
      · rw [if_neg hac, if_neg hac]

theorem containsL_eq_false_drop (pat : List Char) :
    ∀ l : List Char, containsL pat l = false →
      ∀ i, startsWithL pat (l.drop i) = false := by
  intro l
  induction l with
  | nil =>
    intro h i
    simp only [List.drop_nil]
    cases pat with
    | nil => simp [containsL] at h
    | cons a ps => rfl
  | cons c cs ih =>
    intro h i
    simp only [containsL, Bool.or_eq_false_iff] at h
    cases i with
    | zero => exact h.1
    | succ i => exact ih h.2 i

/-- A failed occurrence of `page` cannot be created by gluing a `page`-free
nonempty block onto a block that itself starts with `page`. -/

theorem startsWith_page_boundary (t rest : List Char)
    (ht : startsWithL page4 t = false) (hne : t ≠ []) :
    startsWithL page4 (t ++ 'p' :: 'a' :: 'g' :: 'e' :: rest) = false := by
  cases t with
  | nil => exact absurd rfl hne
  | cons x t1 =>
    cases t1 with
    | nil =>
      show startsWithL page4 ('p' :: 'a' :: 'g' :: 'e' :: rest |> List.cons x) = false
      simp only [page4, startsWithL]
      rw [if_neg (show ¬('a' = 'p') by decide), ite_self]
    | cons y t2 =>
      cases t2 with
      | nil =>
        show startsWithL page4
            ('p' :: 'a' :: 'g' :: 'e' :: rest |> List.cons y |> List.cons x) = false
        simp only [page4, startsWithL]
        rw [if_neg (show ¬('g' = 'p') by decide), ite_self, ite_self]
      | cons z t3 =>
        cases t3 with
        | nil =>
          show startsWithL page4
              ('p' :: 'a' :: 'g' :: 'e' :: rest |> List.cons z |> List.cons y
                |> List.cons x) = false
          simp only [page4, startsWithL]
          rw [if_neg (show ¬('e' = 'p') by decide), ite_self, ite_self, ite_self]
        | cons w t4 =>
          rw [startsWithL_append_right page4 (x :: y :: z :: w :: t4)
            ('p' :: 'a' :: 'g' :: 'e' :: rest)
            (by simp only [page4, List.length_cons, List.length_nil]; omega)]
          exact ht

theorem startsWithL_pageEq_false (l : List Char)
    (h : startsWithL page4 l = false) : startsWithL pageEq l = false := by
  cases hv : startsWithL pageEq l
  · rfl
  · have h4 : startsWithL page4 l = true :=
      startsWithL_append_left page4 ['='] l hv
    rw [h] at h4
    exact absurd h4 (by simp)

theorem matchesAt_eq_false (l : List Char)
    (h : startsWithL page4 l = false) : matchesAt l = false := by
  unfold matchesAt
  rw [startsWithL_pageEq_false l h]
  rfl

theorem reSubPage_append_of_no_match (repl : List Char) :
    ∀ pre rest : List Char,
      (∀ i, i < pre.length → matchesAt ((pre ++ rest).drop i) = false) →
      reSubPage repl (pre ++ rest) = pre ++ reSubPage repl rest := by
  intro pre
  induction pre with
  | nil => intro rest _; simp
  | cons c pre ih =>
    intro rest h
    have h0 : matchesAt (c :: (pre ++ rest)) = false := by
      have := h 0 (by simp)
      simpa using this
    rw [List.cons_append, reSubPage_cons, if_neg (by simp [h0])]
    rw [ih rest (fun i hi => by
      simpa using h (i + 1) (by simpa using Nat.succ_lt_succ hi))]
    rfl

theorem reSubPage_eq_self (repl l : List Char)
    (h : containsL page4 l = false) : reSubPage repl l = l := by
  have hm : ∀ i, i < l.length → matchesAt ((l ++ ([] : List Char)).drop i) = false := by
    intro i _
    rw [List.append_nil]
    exact matchesAt_eq_false _ (containsL_eq_false_drop page4 l h i)
  have h2 := reSubPage_append_of_no_match repl l [] hm
  rw [List.append_nil, reSubPage_nil, List.append_nil] at h2
  exact h2

theorem reSubPage_at_match (repl : List Char) (d : Char) (suf : List Char)
    (hd : d ≠ '&') :
    reSubPage repl ('p' :: 'a' :: 'g' :: 'e' :: '=' :: d :: suf) =
      pageEq ++ repl ++ reSubPage repl suf := by
  have hm : matchesAt ('p' :: 'a' :: 'g' :: 'e' :: '=' :: d :: suf) = true := by
    unfold matchesAt
    have h1 : startsWithL pageEq ('p' :: 'a' :: 'g' :: 'e' :: '=' :: d :: suf) =
        true := rfl
    rw [h1]
    simp [hd]
  rw [reSubPage_cons, if_pos hm]
  rfl

/-- Correctness of the single-character rewrite when the page value is one
character and `page` occurs nowhere else in the URL. -/

theorem reSubPage_rewrites (repl pre suf : List Char) (d : Char)
    (hpre : containsL page4 pre = false) (hsuf : containsL page4 suf = false)
    (hd : d ≠ '&') :
    reSubPage repl (pre ++ pageEq ++ d :: suf) =
      pre ++ pageEq ++ repl ++ suf := by
  have e : pre ++ pageEq ++ d :: suf =
      pre ++ ('p' :: 'a' :: 'g' :: 'e' :: '=' :: d :: suf) := by
    simp [pageEq]
  rw [e]
  rw [reSubPage_append_of_no_match repl pre _ (fun i hi => by
    rw [List.drop_append_of_le_length (le_of_lt hi)]
    apply matchesAt_eq_false
    apply startsWith_page_boundary (pre.drop i) ('=' :: d :: suf)
      (containsL_eq_false_drop page4 pre hpre i)
    intro hnil
    have hlen : (pre.drop i).length = 0 := by rw [hnil]; rfl
    rw [List.length_drop] at hlen
    omega)]
  rw [reSubPage_at_match repl d suf hd, reSubPage_eq_self repl suf hsuf]
  simp [pageEq]

theorem pageParamOf_append (pre : List Char) (v : List Char)
    (hpre : containsL page4 pre = false) :
    pageParamOf (pre ++ 'p' :: 'a' :: 'g' :: 'e' :: '=' :: v) =
      pageParamOf ('p' :: 'a' :: 'g' :: 'e' :: '=' :: v) := by
  induction pre with
  | nil => rfl
  | cons c pre ih =>
    simp only [containsL, Bool.or_eq_false_iff] at hpre
    have hb : startsWithL pageEq
        ((c :: pre) ++ 'p' :: 'a' :: 'g' :: 'e' :: '=' :: v) = false :=
      startsWithL_pageEq_false _
        (startsWith_page_boundary (c :: pre) ('=' :: v) hpre.1 (by simp))
    rw [List.cons_append]
    rw [List.cons_append] at hb
    rw [pageParamOf, if_neg (by simp [hb])]
    exact ih hpre.2

theorem takeWhile_append_of_all (p : Char → Bool) (l l2 : List Char)
    (h : ∀ c ∈ l, p c = true) :
    List.takeWhile p (l ++ l2) = l ++ List.takeWhile p l2 := by
  induction l with
  | nil => simp
  | cons a l ih =>
    simp only [List.cons_append, List.takeWhile_cons]
    rw [if_pos (h a (by simp)), ih (fun c hc => h c (by simp [hc]))]

theorem digitChar_isDigit : ∀ m : Nat, m < 10 →
    (Nat.digitChar m).isDigit = true := by decide

theorem natCharsAux_digits :
    ∀ f n : Nat, ∀ c ∈ natCharsAux f n, c.isDigit = true := by
  intro f
  induction f with
  | zero => intro n c hc; simp [natCharsAux] at hc
  | succ f ih =>
    intro n c hc
    simp only [natCharsAux] at hc
    by_cases h : n < 10
    · rw [if_pos h] at hc
      simp only [List.mem_singleton] at hc
      subst hc
      exact digitChar_isDigit n h
    · rw [if_neg h] at hc
      rw [List.mem_append] at hc
      cases hc with
      | inl h1 => exact ih (n / 10) c h1
      | inr h2 =>
        simp only [List.mem_singleton] at h2
        subst h2
        exact digitChar_isDigit (n % 10) (Nat.mod_lt n (by omega))

theorem isDigit_ne_amp (c : Char) (h : c.isDigit = true) : (c != '&') = true := by
  rw [bne_iff_ne]
  intro he
  subst he
  exact absurd h (by decide)

theorem intToChars_no_amp (i : Int) : ∀ c ∈ intToChars i, (c != '&') = true := by
  intro c hc
  unfold intToChars at hc
  by_cases h : i < 0
  · rw [if_pos h] at hc
    simp only [List.mem_cons] at hc
    cases hc with
    | inl h1 => subst h1; decide
    | inr h2 => exact isDigit_ne_amp c (natCharsAux_digits _ _ c h2)
  · rw [if_neg h] at hc
    exact isDigit_ne_amp c (natCharsAux_digits _ _ c hc)

/-- After a correct rewrite, the page parameter reads back as exactly the
replacement text. -/

theorem pageParamOf_value (pre v suf : List Char)
    (hpre : containsL page4 pre = false)
    (hv : ∀ c ∈ v, (c != '&') = true)
    (hsuf : suf = [] ∨ ∃ s, suf = '&' :: s) :
    pageParamOf (pre ++ pageEq ++ v ++ suf) = some v := by
  have e : pre ++ pageEq ++ v ++ suf =
      pre ++ 'p' :: 'a' :: 'g' :: 'e' :: '=' :: (v ++ suf) := by
    simp [pageEq]
  rw [e, pageParamOf_append pre (v ++ suf) hpre]
  rw [pageParamOf, if_pos (show startsWithL pageEq
    ('p' :: 'a' :: 'g' :: 'e' :: '=' :: (v ++ suf)) = true from rfl)]
  show some (List.takeWhile (fun x => x != '&') (v ++ suf)) = some v
  rw [takeWhile_append_of_all _ v suf hv]
  cases hsuf with
  | inl h => subst h; simp
  | inr h =>
    obtain ⟨s, hs⟩ := h
    subst hs
    rw [List.takeWhile_cons, if_neg (by decide)]
    simp

/-- C3: the page-parameter rewrite is correct exactly for single-character
page values.  For every URL decomposed as `pre ++ "page=" ++ [d] ++ suf`
with `d` a digit, `page` occurring nowhere else and `suf` empty or another
parameter block, the rewrite yields `pre ++ "page=" ++ str target ++ suf`,
whose page parameter is the target; but on the concrete URL with the
multi-digit value `page=10`, stepping to page 11 produces `page=110`,
whose page parameter is not the target 11. -/

theorem page_rewrite_single_digit_only :
    (∀ (pre suf : List Char) (d : Char) (target : Int),
        d.isDigit = true →
        containsL page4 pre = false → containsL page4 suf = false →
        (suf = [] ∨ ∃ s, suf = '&' :: s) →
        reSubPage (intToChars target) (pre ++ pageEq ++ d :: suf) =
          pre ++ pageEq ++ intToChars target ++ suf ∧
        pageParamOf
            (reSubPage (intToChars target) (pre ++ pageEq ++ d :: suf)) =
          some (intToChars target)) ∧
    pageParamOf (reSubPage (intToChars (10 + 1))
        "http://h/users?page=10&limit=2".data) = some "110".data ∧
    pageParamOf (reSubPage (intToChars (10 + 1))
        "http://h/users?page=10&limit=2".data) ≠ some (intToChars (10 + 1)) := by
  refine ⟨?_, by decide, by decide⟩
  intro pre suf d target hd hpre hsuf hshape
  have hdamp : d ≠ '&' := fun he => by subst he; exact absurd hd (by decide)
  have h1 := reSubPage_rewrites (intToChars target) pre suf d hpre hsuf hdamp
  refine ⟨h1, ?_⟩
  rw [h1]
  exact pageParamOf_value pre (intToChars target) suf hpre
    (intToChars_no_amp target) hshape

/-- Witness for `page_rewrite_single_digit_only` on the URL
`http://h/users?page=3&limit=2`, stepping to page 4. -/

theorem page_rewrite_single_digit_only_witness :
    reSubPage (intToChars 4)
        ("http://h/users?".data ++ pageEq ++ '3' :: "&limit=2".data) =
      "http://h/users?".data ++ pageEq ++ intToChars 4 ++ "&limit=2".data ∧
    pageParamOf (reSubPage (intToChars 4)
        ("http://h/users?".data ++ pageEq ++ '3' :: "&limit=2".data)) =
      some (intToChars 4) :=
  page_rewrite_single_digit_only.1 "http://h/users?".data "&limit=2".data
    '3' 4 (by decide) (by decide) (by decide)
    (Or.inr ⟨"limit=2".data, by decide⟩)

/-- C4: whenever the next link is non-null it is: the base URL with the
page parameter rewritten to `page+1` when `page` occurs in the base URL;
else the base URL with `&page={page+1}` appended when `limit` occurs;
else the base URL with `?page={page+1}&limit=1` appended. -/

theorem next_link_shape (base_url : List Char) (page limit total_records : Int)
    (s : List Char)
    (h : get_next_page base_url page limit total_records = some s) :
    s = if containsL page4 base_url then
          reSubPage (intToChars (page + 1)) base_url
        else if containsL ['l', 'i', 'm', 'i', 't'] base_url then
          base_url ++ ('&' :: pageEq) ++ intToChars (page + 1)
        else
          base_url ++ ('?' :: pageEq) ++ intToChars (page + 1) ++
            "&limit=1".data := by
  unfold get_next_page at h
  split_ifs at h ⊢ with h1 h2 h3 <;>
    exact (Option.some.inj h).symm

/-- Witness for `next_link_shape` on a base URL with a `limit` parameter
and no `page` parameter. -/

theorem next_link_shape_witness :
    "u?limit=2&page=2".data =
      if containsL page4 "u?limit=2".data then
        reSubPage (intToChars (1 + 1)) "u?limit=2".data
      else if containsL ['l', 'i', 'm', 'i', 't'] "u?limit=2".data then
        "u?limit=2".data ++ ('&' :: pageEq) ++ intToChars (1 + 1)
      else
        "u?limit=2".data ++ ('?' :: pageEq) ++ intToChars (1 + 1) ++
          "&limit=1".data :=
  next_link_shape "u?limit=2".data 1 2 5 "u?limit=2&page=2".data (by decide)

/-- C5: the service reclassifies every repository fault as a 500 carrying
the original cause; an absence signal becomes 404 for read/update/delete
but 500 for create. -/

theorem service_error_reclassification :
    ∀ (user_id : String) (u : User) (e : PyErr),
      errWellFormed e = true →
      (raisedStatus (retrieve_user user_id (.error e)) = some 500 ∧
        raisedCause (retrieve_user user_id (.error e)) = some (origCause e) ∧
        raisedStatus (retrieve_user user_id (.ok none)) = some 404 ∧
        retrieve_user user_id (.ok (some u)) = .ok u) ∧
      (raisedStatus (replace_user user_id u (.error e)) = some 500 ∧
        raisedCause (replace_user user_id u (.error e)) = some (origCause e) ∧
        raisedStatus (replace_user user_id u (.ok none)) = some 404) ∧
      (raisedStatus (remove_user user_id (.error e)) = some 500 ∧
        raisedCause (remove_user user_id (.error e)) = some (origCause e) ∧
        raisedStatus (remove_user user_id (.ok none)) = some 404) ∧
      (raisedStatus (register_user u (.error e)) = some 500 ∧
        raisedCause (register_user u (.error e)) = some (origCause e) ∧
        raisedStatus (register_user u (.ok none)) = some 500) := by
  intro user_id u e hwf
  cases e with
  | other s =>
    exact ⟨⟨rfl, rfl, rfl, rfl⟩, ⟨rfl, rfl, rfl⟩, ⟨rfl, rfl, rfl⟩,
      ⟨rfl, rfl, rfl⟩⟩
  | server se =>
    cases hd : se.detail with
    | none =>
      rw [errWellFormed, hd] at hwf
      simp at hwf
    | some d =>
      simp [retrieve_user, replace_user, remove_user, register_user,
        service_wrap, hd, raisedStatus, raisedCause, mkServerError,
        origCause]

/-- Witness for `service_error_reclassification` with a generic exception. -/

theorem service_error_reclassification_witness :
    (raisedStatus (retrieve_user "i" (.error (.other "boom"))) = some 500 ∧
      raisedCause (retrieve_user "i" (.error (.other "boom"))) =
        some (origCause (.other "boom")) ∧
      raisedStatus (retrieve_user "i" (.ok none)) = some 404 ∧
      retrieve_user "i" (.ok (some testUser)) = .ok testUser) ∧
    (raisedStatus (replace_user "i" testUser (.error (.other "boom"))) =
        some 500 ∧
      raisedCause (replace_user "i" testUser (.error (.other "boom"))) =
        some (origCause (.other "boom")) ∧
      raisedStatus (replace_user "i" testUser (.ok none)) = some 404) ∧
    (raisedStatus (remove_user "i" (.error (.other "boom"))) = some 500 ∧
      raisedCause (remove_user "i" (.error (.other "boom"))) =
        some (origCause (.other "boom")) ∧
      raisedStatus (remove_user "i" (.ok none)) = some 404) ∧
    (raisedStatus (register_user testUser (.error (.other "boom"))) =
        some 500 ∧
      raisedCause (register_user testUser (.error (.other "boom"))) =
        some (origCause (.other "boom")) ∧
      raisedStatus (register_user testUser (.ok none)) = some 500) :=
  service_error_reclassification "i" testUser (.other "boom") rfl

/-- C6: read/update/delete return the absence value when the database
reports zero rows affected, and raise only when the underlying operation
itself fails. -/

theorem repo_zero_rows_absence :
    ∀ (user_id : String) (user : User) (parsed : Option UUIDVal)
      (db : UUIDVal → Except String ExecResult),
      (∀ uid res, parsed = some uid → db uid = Except.ok res →
        res.rowcount = 0 →
        read_user user_id parsed db = .ok none ∧
        update_user user_id user parsed db = .ok none ∧
        delete_user user_id parsed db = .ok none) ∧
      (∀ e, read_user user_id parsed db = .error e →
        repoFaulted parsed db) ∧
      (∀ e, update_user user_id user parsed db = .error e →
        repoFaulted parsed db) ∧
      (∀ e, delete_user user_id parsed db = .error e →
        repoFaulted parsed db) := by
  intro user_id user parsed db
  have main : ∀ e : PyErr,
      (read_user user_id parsed db = .error e ∨
        update_user user_id user parsed db = .error e ∨
        delete_user user_id parsed db = .error e) →
      repoFaulted parsed db := by
    intro e he
    cases hp : parsed with
    | none => exact Or.inl rfl
    | some uid =>
      cases hdb : db uid with
      | error c => exact Or.inr (Or.inl ⟨uid, c, rfl, hdb⟩)
      | ok r =>
        by_cases hrc : r.rowcount = 0
        · exfalso
          rcases he with he | he | he <;>
            simp [read_user, update_user, delete_user, hp, hdb, hrc] at he
        · cases hh : r.rows.head? with
          | none => exact Or.inr (Or.inr ⟨uid, r, rfl, hdb, hrc, Or.inl hh⟩)
          | some raw =>
            cases htd : to_domain raw with
            | ok u2 =>
              exfalso
              rcases he with he | he | he <;>
                simp [read_user, update_user, delete_user, hp, hdb, hrc,
                  hh, htd] at he
            | error m =>
              exact Or.inr (Or.inr
                ⟨uid, r, rfl, hdb, hrc, Or.inr ⟨raw, m, hh, htd⟩⟩)
  refine ⟨?_, fun e he => main e (Or.inl he),
    fun e he => main e (Or.inr (Or.inl he)),
    fun e he => main e (Or.inr (Or.inr he))⟩
  intro uid res hp hdb hrc
  subst hp
  refine ⟨?_, ?_, ?_⟩ <;> simp [read_user, update_user, delete_user, hdb, hrc]

/-- Witness for `repo_zero_rows_absence` with a zero-rowcount database. -/

theorem repo_zero_rows_absence_witness :
    read_user "i" (some { hex := "u" }) dbZero = .ok none ∧
    update_user "i" testUser (some { hex := "u" }) dbZero = .ok none ∧
    delete_user "i" (some { hex := "u" }) dbZero = .ok none :=
  (repo_zero_rows_absence "i" testUser (some { hex := "u" }) dbZero).1
    { hex := "u" } { rowcount := 0, rows := [] } rfl rfl rfl

theorem natChars_head_400 : ∀ n : Nat, n < 500 → 400 ≤ n →
    (natChars n).headD ' ' = '4' := by decide

theorem natChars_head_500 : ∀ n : Nat, n < 600 → 500 ≤ n →
    (natChars n).headD ' ' = '5' := by decide

/-- C7: a `ServerError` constructed with a status code is operational
exactly when the decimal representation of that code starts with `4`; in
particular every 4xx code is operational and every 5xx code is not; the
validation handler answers 422 and operational, and the server-error
handler passes status and flag through to the response body. -/

theorem server_error_operational_iff_4xx :
    (∀ (msg : String) (d : Option Detail) (c : Int),
        ((mkServerError msg (some c) d).is_operational = true ↔
          (intToChars c).headD ' ' = '4')) ∧
    (∀ (msg : String) (d : Option Detail) (c : Int), 400 ≤ c → c < 500 →
        (mkServerError msg (some c) d).is_operational = true) ∧
    (∀ (msg : String) (d : Option Detail) (c : Int), 500 ≤ c → c < 600 →
        (mkServerError msg (some c) d).is_operational = false) ∧
    (∀ (body : Option CtxVal) (errors : String),
        (handle_request_validation_error body errors).status_code = 422 ∧
        (handle_request_validation_error body errors).content.is_operational =
          true) ∧
    (∀ e : ServerErrorE,
        (handle_server_error e).status_code = e.status_code ∧
        (handle_server_error e).content.is_operational = e.is_operational) := by
  refine ⟨?_, ?_, ?_, fun body errors => ⟨rfl, rfl⟩, fun e => ⟨rfl, rfl⟩⟩
  · intro msg d c
    show startsWith4 (pyStrOptInt (some c)) = true ↔ _
    simp [startsWith4, pyStrOptInt]
  · intro msg d c h4 h5
    show startsWith4 (pyStrOptInt (some c)) = true
    have hc : ¬ (c < 0) := by omega
    simp only [pyStrOptInt, intToChars, if_neg hc, startsWith4]
    rw [natChars_head_400 c.toNat (by omega) (by omega)]
    rfl
  · intro msg d c h5 h6
    show startsWith4 (pyStrOptInt (some c)) = false
    have hc : ¬ (c < 0) := by omega
    simp only [pyStrOptInt, intToChars, if_neg hc, startsWith4]
    rw [natChars_head_500 c.toNat (by omega) (by omega)]
    rfl

/-- Witness for `server_error_operational_iff_4xx` at status codes 404
and 500. -/

theorem server_error_operational_iff_4xx_witness :
    (mkServerError "m" (some 404) none).is_operational = true ∧
    (mkServerError "m" (some 500) none).is_operational = false :=
  ⟨server_error_operational_iff_4xx.2.1 "m" none 404 (by decide) (by decide),
    server_error_operational_iff_4xx.2.2.1 "m" none 500 (by decide)
      (by decide)⟩

/-- Counterexample to C8 as stated: the literal composition
`to_domain(to_persistence(u))` hands `to_domain` a plain dict, whose
attribute access raises `AttributeError`, already at a concrete user. -/

theorem mapper_round_trip_raises :
    to_domain (dictAsBag (to_persistence bareUser)) =
      Except.error "AttributeError" := rfl

/-- C8 (amended): the literal composition `to_domain(to_persistence(u))`
raises `AttributeError` for every user, because a dict exposes no
attributes; composed through the `DictToObj` adaptation, as the
repository and the tests do, the round trip succeeds and preserves name
and email. -/

theorem mapper_round_trip_preserves :
    ∀ u : User,
      to_domain (dictAsBag (to_persistence u)) =
        Except.error "AttributeError" ∧
      ∃ v : User,
        to_domain (dict_to_obj (to_persistence u)) = .ok v ∧
        v.name = u.name ∧ v.email = u.email := by
  intro u
  exact ⟨rfl, _, rfl, rfl, rfl⟩

/-- Counterexample to C9 as stated: `to_response` is not total on its
stated input type (the domain `User`, whose `id` and `created_at` are
optional): it fails on a user with absent `id` and `created_at`. -/

theorem to_response_partiality :
    to_response 0 bareUser = Except.error "ValidationError" := rfl

/-- C9 (amended): wire-request-to-domain and storage-row-to-domain are
total; domain-to-wire-response is total exactly on users whose `id` and
`created_at` are present, and normalizes present timestamps to a
timezone-aware representation; it fails when `id` or `created_at` is
absent. -/

theorem mapper_conversions_totality :
    (∀ r : UserRequest, to_domain (reqToBag r) =
        .ok { id := none, name := r.name, email := r.email,
              created_at := none, updated_at := none }) ∧
    (∀ row : StorageRow, to_domain (rowToBag row) =
        .ok { id := some row.id, name := row.name, email := row.email,
              created_at := some row.created_at,
              updated_at := row.updated_at }) ∧
    (∀ (localtz : Int) (u : User) (i : String) (c : PyDateTime),
        u.id = some i → u.created_at = some c →
        to_response localtz u =
          .ok { id := i, name := u.name, email := u.email,
                created_at := astimezone localtz c,
                updated_at := u.updated_at.map (astimezone localtz) } ∧
        (astimezone localtz c).tz = some localtz) ∧
    (∀ (localtz : Int) (u : User), u.id = none ∨ u.created_at = none →
        ∃ s, to_response localtz u = .error s) := by
  refine ⟨fun r => rfl, fun row => rfl, ?_, ?_⟩
  · intro localtz u i c hi hc
    refine ⟨?_, rfl⟩
    unfold to_response
    rw [hi, hc]
  · intro localtz u h
    unfold to_response
    cases hid : u.id with
    | none => exact ⟨"ValidationError", rfl⟩
    | some i =>
      cases hca : u.created_at with
      | none => exact ⟨"ValidationError", rfl⟩
      | some c =>
        rcases h with h | h
        · rw [hid] at h
          exact absurd h (by simp)
        · rw [hca] at h
          exact absurd h (by simp)

/-- Witness for `mapper_conversions_totality` on a complete user. -/

theorem mapper_conversions_totality_witness :
    to_response 3 fullUser =
      .ok { id := "u1", name := fullUser.name, email := fullUser.email,
            created_at := astimezone 3 dt0,
            updated_at := fullUser.updated_at.map (astimezone 3) } ∧
    (astimezone 3 dt0).tz = some 3 :=
  mapper_conversions_totality.2.2.1 3 fullUser "u1" dt0 rfl rfl

/-- C10: a user id whose UUID parse fails never yields the not-found
outcome at the repository (the parse error is re-raised as a 500), and
through the service layer it surfaces as a 500, not a 404. -/

theorem malformed_id_yields_internal_error :
    ∀ (user_id : String) (user : User)
      (db : UUIDVal → Except String ExecResult),
      read_user user_id none db ≠ .ok none ∧
      update_user user_id user none db ≠ .ok none ∧
      delete_user user_id none db ≠ .ok none ∧
      raisedStatus (retrieve_user user_id (read_user user_id none db)) =
        some 500 ∧
      raisedStatus (replace_user user_id user
        (update_user user_id user none db)) = some 500 ∧
      raisedStatus (remove_user user_id (delete_user user_id none db)) =
        some 500 := by
  intro user_id user db
  refine ⟨?_, ?_, ?_, rfl, rfl, rfl⟩ <;>
    simp [read_user, update_user, delete_user]
